import Mathlib

/-!
Shallow embedding of the forecasting-model lifecycle manager of the
Sales-Forecasting-Analytics repository, and proofs settling the frozen
claims C1..C10 against it.

Conventions of the embedding:
* a pandas Series of monthly sales values is a `List ℚ` (values in order;
  the timestamp index is carried separately where a claim needs it);
* the SARIMAX estimation engine is opaque in the source, so fitting is an
  explicit function parameter (`fit`): `none` models a fit call that raises
  (non-convergence, singular matrix, ...), `some` a successful fit;
* Python functions that can raise are embedded as `Except`-valued
  functions; a Python function with no raise path is total;
* machine floats are embedded as exact rationals; where the float special
  values inf/nan are semantically relevant (division by a zero actual in
  the MAPE computation) an explicit extended type `PyFloat` is used.
-/

deriving instance DecidableEq for Except

namespace Differencing

/-- Embedding of `difference_series` (src/differencing.py lines 32-44):
`series.diff().dropna()`.  `diff` puts `s[t] - s[t-1]` at index `t` and a
NaN at index 0; `dropna` removes that single NaN (the input series carries
no missing values, so no other row is dropped).  The result is therefore
the list of consecutive differences, first position dropped. -/
def difference_series (s : List ℚ) : List ℚ :=
  List.zipWith (fun a b => a - b) s.tail s

end Differencing

namespace ModelEvaluation

/-- Embedding of the holdout/test size constant (src/config.py line 39). -/
def TEST_SIZE : ℕ := 12

/-- Embedding of the train/test split of src/model_evaluation.py lines
33-34: `train = monthly_sales[:-h]` and `test = monthly_sales[-h:]` with
Python slice semantics.  For h > 0 the slice `[:-h]` keeps the first
`len - h` elements (empty once h ≥ len, by ℕ truncated subtraction) and
`[-h:]` keeps the remaining suffix; for h = 0 the slice `[:-0] = [:0]` is
empty and `[-0:] = [0:]` is the whole series. -/
def trainTestSplit (s : List ℚ) (h : ℕ) : List ℚ × List ℚ :=
  if h = 0 then ([], s)
  else (s.take (s.length - h), s.drop (s.length - h))

/-- Absolute value of a float as computed by `np.abs`: negate when
negative.  (Identical to Mathlib's `|q|` on ℚ — see `qabs_eq_abs` — but
written with an explicit test so concrete runs evaluate.) -/
def qabs (q : ℚ) : ℚ := if q < 0 then -q else q

/-- Arithmetic mean as computed by `np.mean`/sklearn on a list of floats,
in exact rational arithmetic.  (On the empty list `np.mean` yields NaN;
the ℚ value 0/0 = 0 here is only ever used under a nonemptiness
hypothesis.) -/
def mean (l : List ℚ) : ℚ := l.sum / l.length

/-- Embedding of `mean_absolute_error(test, predictions)`
(src/model_evaluation.py line 64). -/
def mae (test pred : List ℚ) : ℚ :=
  mean (List.zipWith (fun a b => qabs (a - b)) test pred)

/-- Mean squared error, `mean_squared_error(test, predictions)` — the
mean of the squared errors, each square written as a product; the code
takes `np.sqrt` of this on line 65 to obtain the RMSE. -/
def mse (test pred : List ℚ) : ℚ :=
  mean (List.zipWith (fun a b => (a - b) * (a - b)) test pred)

/-- Embedding of `rmse = np.sqrt(mean_squared_error(test, predictions))`
(src/model_evaluation.py line 65). -/
noncomputable def rmse (test pred : List ℚ) : ℝ :=
  Real.sqrt (mse test pred)

/-- Embedding of `mape = np.mean(np.abs((test - predictions) / test)) * 100`
(src/model_evaluation.py line 66), valid on the domain where every test
actual is nonzero (ℚ division by zero is junk; the zero-actual behaviour of
the float division is captured exactly by `mapeFloat` below). -/
def mape (test pred : List ℚ) : ℚ :=
  mean (List.zipWith (fun a b => qabs ((a - b) / a)) test pred) * 100

/-- IEEE-754-style extended value as produced by numpy float arithmetic:
a finite value, a signed infinity, or NaN.  Used to embed the MAPE
computation exactly where a test actual may be zero: numpy division by
zero emits a warning and yields ±inf (or NaN for 0/0); it never raises. -/
inductive PyFloat where
  | num (q : ℚ)
  | posInf
  | negInf
  | nan
deriving DecidableEq

/-- Addition on `PyFloat` following IEEE-754 (NaN absorbs; inf + (-inf)
is NaN; infinities absorb finite values). -/
def pfAdd : PyFloat → PyFloat → PyFloat
  | .nan, _ => .nan
  | _, .nan => .nan
  | .posInf, .negInf => .nan
  | .negInf, .posInf => .nan
  | .posInf, _ => .posInf
  | _, .posInf => .posInf
  | .negInf, _ => .negInf
  | _, .negInf => .negInf
  | .num a, .num b => .num (a + b)

/-- numpy float division of two finite values: x/0 is NaN when x = 0 and
±inf otherwise; division never raises. -/
def pfDiv (x y : ℚ) : PyFloat :=
  if y = 0 then
    if x = 0 then .nan else if 0 < x then .posInf else .negInf
  else .num (x / y)

/-- Absolute value on `PyFloat` (|±inf| = +inf, |NaN| = NaN). -/
def pfAbs : PyFloat → PyFloat
  | .num q => .num (qabs q)
  | .posInf => .posInf
  | .negInf => .posInf
  | .nan => .nan

/-- Division of an extended value by a list length, as in `np.mean`
(sum / n); the mean of an empty array is NaN. -/
def pfMeanDiv (x : PyFloat) (n : ℕ) : PyFloat :=
  if n = 0 then .nan
  else
    match x with
    | .num q => .num (q / n)
    | x => x

/-- Multiplication by the positive constant 100 (inf and NaN are fixed). -/
def pfScale100 : PyFloat → PyFloat
  | .num q => .num (q * 100)
  | x => x

/-- Exact embedding of the MAPE line
`np.mean(np.abs((test - predictions) / test)) * 100`
(src/model_evaluation.py line 66) in numpy float semantics: elementwise
division (possibly ±inf/NaN on a zero actual), absolute value, mean, and
scaling by 100.  No step of this pipeline can raise. -/
def mapeFloat (test pred : List ℚ) : PyFloat :=
  let terms := List.zipWith (fun a b => pfAbs (pfDiv (a - b) a)) test pred
  pfScale100 (pfMeanDiv (terms.foldl pfAdd (.num 0)) terms.length)

/-- Error taxonomy of the evaluator named by the spec (section 7).  The
module-level script in src/model_evaluation.py can only fail inside the
opaque SARIMAX fit/predict call; it contains no length check and no
division-by-zero check, so the first two constructors are never produced
by the embedding. -/
inductive EvalError where
  | insufficientData
  | divisionByZero
  | fittingError
deriving DecidableEq

/-- The three metrics printed by the evaluation script.  The RMSE is
recorded through its square `mse` (the script applies `np.sqrt` to it);
the MAPE is recorded in exact float semantics (`PyFloat`). -/
structure EvalMetrics where
  maeVal : ℚ
  mseVal : ℚ
  mapeVal : PyFloat
deriving DecidableEq

/-- Embedding of the evaluation run of src/model_evaluation.py (module
level, lines 21-71): split the monthly series into train/test, fit SARIMA
on the train split (the opaque engine call; `none` models a raised fitting
error, which propagates uncaught), predict over the test window, and
compute MAE/RMSE/MAPE.  The metric computation itself has no raise path:
after a successful fit the run always returns `.ok`. -/
def evaluateRun (fit : List ℚ → Option (List ℚ)) (series : List ℚ)
    (holdout : ℕ) : Except EvalError EvalMetrics :=
  match fit (trainTestSplit series holdout).1 with
  | none => .error .fittingError
  | some preds =>
      .ok ⟨mae (trainTestSplit series holdout).2 preds,
        mse (trainTestSplit series holdout).2 preds,
        mapeFloat (trainTestSplit series holdout).2 preds⟩

/-- A 12-month series of constant sales 100; with the holdout size 12 of
the config its train split is empty. -/
def emptyTrainSeries : List ℚ := List.replicate 12 100

/-- A fit stub that converges on any input and predicts a constant 100
for the 12 test months. -/
def constFit : List ℚ → Option (List ℚ) := fun _ => some (List.replicate 12 100)

/-- A 2-month series whose last (holdout) value is exactly zero. -/
def zeroActualSeries : List ℚ := [50, 0]

/-- A fit stub that converges and predicts 40 for the single test month. -/
def fortyFit : List ℚ → Option (List ℚ) := fun _ => some [40]

end ModelEvaluation

namespace HyperparameterTuning

/-- One SARIMA parameter combination (p, d, q)(P, D, Q) enumerated by the
grid search (the seasonal period m = 12 is fixed and not enumerated). -/
structure SarimaCombo where
  p : ℕ
  d : ℕ
  q : ℕ
  P : ℕ
  D : ℕ
  Q : ℕ
deriving DecidableEq

/-- One row of the grid-search result (src/hyperparameter_tuning.py lines
87-94): the combination together with the AIC and BIC of its fit. -/
structure GridEntry where
  combo : SarimaCombo
  aic : ℚ
  bic : ℚ
deriving DecidableEq

/-- Embedding of `range(lo, hi + 1)` applied to an inclusive range pair,
as on lines 54-59 of src/hyperparameter_tuning.py: the values lo..hi in
increasing order, empty when hi < lo. -/
def rangeVals (r : ℕ × ℕ) : List ℕ :=
  (List.range (r.2 + 1 - r.1)).map (· + r.1)

/-- Embedding of `itertools.product(p_values, ..., Q_values)` (lines
70-71): all combinations in lexicographic order of (p, d, q, P, D, Q),
the last coordinate varying fastest. -/
def allCombos (pr dr qr Pr Dr Qr : ℕ × ℕ) : List SarimaCombo :=
  (rangeVals pr).flatMap fun p =>
    (rangeVals dr).flatMap fun d =>
      (rangeVals qr).flatMap fun q =>
        (rangeVals Pr).flatMap fun P =>
          (rangeVals Dr).flatMap fun D =>
            (rangeVals Qr).map fun Q => ⟨p, d, q, P, D, Q⟩

/-- Embedding of the `total_combinations` computation (lines 61-64): the
product of the six range sizes, i.e. the Cartesian-product size. -/
def total_combos (pr dr qr Pr Dr Qr : ℕ × ℕ) : ℕ :=
  (rangeVals pr).length * ((rangeVals dr).length * ((rangeVals qr).length *
    ((rangeVals Pr).length * ((rangeVals Dr).length *
      (rangeVals Qr).length))))

/-- The comparison used by `results_df.sort_values('AIC')` (line 102):
the AIC column alone; the BIC and the parameter values play no role. -/
def aicLe (e1 e2 : GridEntry) : Prop := e1.aic ≤ e2.aic

instance : DecidableRel aicLe := fun e1 e2 =>
  inferInstanceAs (Decidable (e1.aic ≤ e2.aic))

instance : IsTotal GridEntry aicLe := ⟨fun e1 e2 => le_total e1.aic e2.aic⟩

instance : IsTrans GridEntry aicLe := ⟨fun _ _ _ => le_trans⟩

/-- Embedding of `grid_search_sarima` (src/hyperparameter_tuning.py lines
33-105).  The opaque SARIMAX fit of each combination is the function
argument `fit`: `some (aic, bic)` for a fit that converges, `none` for one
that raises (the `except: continue` on lines 96-98 silently drops it).
Successful rows are appended in enumeration order and finally sorted by
the AIC column alone; the sort is stable (numpy argsort falls back to an
insertion sort on the small arrays at issue), so it is embedded as a
stable insertion sort keyed on AIC. -/
def grid_search_sarima (fit : SarimaCombo → Option (ℚ × ℚ))
    (pr dr qr Pr Dr Qr : ℕ × ℕ) : List GridEntry :=
  List.insertionSort aicLe
    ((allCombos pr dr qr Pr Dr Qr).filterMap fun c =>
      (fit c).map fun ab => ⟨c, ab.1, ab.2⟩)

/-- Lexicographic order on the six parameter coordinates, as the spec
orders ties: (p, d, q, P, D, Q) compared left to right. -/
def comboLexLe (a b : SarimaCombo) : Prop :=
  a.p < b.p ∨ (a.p = b.p ∧ (a.d < b.d ∨ (a.d = b.d ∧ (a.q < b.q ∨
    (a.q = b.q ∧ (a.P < b.P ∨ (a.P = b.P ∧ (a.D < b.D ∨
      (a.D = b.D ∧ a.Q ≤ b.Q)))))))))

instance (a b : SarimaCombo) : Decidable (comboLexLe a b) := by
  unfold comboLexLe
  infer_instance

/-- The ranking the spec claims for the result (section 4.3): ascending
AIC, ties broken by ascending BIC, remaining ties by lexicographic
parameter order. -/
def specRankLe (e1 e2 : GridEntry) : Prop :=
  e1.aic < e2.aic ∨ (e1.aic = e2.aic ∧ (e1.bic < e2.bic ∨
    (e1.bic = e2.bic ∧ comboLexLe e1.combo e2.combo)))

instance (e1 e2 : GridEntry) : Decidable (specRankLe e1 e2) := by
  unfold specRankLe
  infer_instance

/-- A fit stub for the tie-break counterexample: every combination
converges with AIC 1; the combination with Q = 0 gets BIC 5 and the one
with Q = 1 gets BIC 3. -/
def tieFit (c : SarimaCombo) : Option (ℚ × ℚ) :=
  if c.Q = 0 then some (1, 5) else some (1, 3)

/-- A fit stub for the dropped-combination witness: the combination with
Q = 1 raises, every other one converges with AIC 1 and BIC 2. -/
def dropFit (c : SarimaCombo) : Option (ℚ × ℚ) :=
  if c.Q = 1 then none else some (1, 2)

end HyperparameterTuning

namespace TrainSarima

/-- Error taxonomy of the training entry point (src/train_sarima.py):
a missing cleaned-data file, a too-short series, or a fitting error
propagated from the engine (the bare `raise` on line 119). -/
inductive TrainError where
  | fileNotFound
  | insufficientData
  | fittingError
deriving DecidableEq

/-- Embedding of `load_monthly_sales` (src/train_sarima.py lines 71-98):
`none` for the CSV models a missing cleaned-data file (FileNotFoundError,
exit 1); otherwise the aggregated monthly series is validated against the
24-month minimum (lines 87-88: `if len(monthly_sales) < 24: raise
ValueError(...)`, caught and turned into exit 1). -/
def load_monthly_sales (csv : Option (List ℚ)) :
    Except TrainError (List ℚ) :=
  match csv with
  | none => .error .fileNotFound
  | some s => if s.length < 24 then .error .insufficientData else .ok s

/-- Embedding of `train_sarima` (src/train_sarima.py lines 100-119): the
opaque SARIMAX fit on the series; a fit that raises is re-raised to the
caller (`raise` on line 119), a convergent fit returns the fitted-model
handle.  The model type is opaque, hence a type parameter. -/
def train_sarima {M : Type} (fit : List ℚ → Option M) (s : List ℚ) :
    Except TrainError M :=
  match fit s with
  | none => .error .fittingError
  | some m => .ok m

/-- Embedding of the training flow of `main` (src/train_sarima.py lines
121-148) up to the fitted model: load and validate the monthly series,
then fit it. -/
def trainPipeline {M : Type} (fit : List ℚ → Option M)
    (csv : Option (List ℚ)) : Except TrainError M :=
  (load_monthly_sales csv).bind (train_sarima fit)

/-- A 23-month series (one month short of the minimum). -/
def series23 : List ℚ := List.replicate 23 100

/-- A 24-month series (exactly the minimum). -/
def series24 : List ℚ := List.replicate 24 100

/-- A convergent fit stub returning the opaque handle 7. -/
def okFit : List ℚ → Option ℕ := fun _ => some 7

end TrainSarima

namespace ModelUtils

/-- Keys of the persisted JSON metadata object (src/config.py and
src/train_sarima.py lines 132-140; string keys abstracted to an
enumeration, values to ℕ codes). -/
inductive MetaKey where
  | model_type
  | order
  | seasonal_order
  | n_obs
  | date_range
  | aic
  | bic
  | saved_at
  | model_file
deriving DecidableEq

/-- A JSON metadata object: an association list of keys and (abstracted)
values, as written by `json.dump` and read by `json.load`. -/
abbrev MetaDict := List (MetaKey × ℕ)

/-- Python dict assignment `d[k] = v`: replace the value of an existing
key, else append the new binding. -/
def setKey (d : MetaDict) (k : MetaKey) (v : ℕ) : MetaDict :=
  if d.any fun kv => kv.1 = k then
    d.map fun kv => if kv.1 = k then (k, v) else kv
  else d ++ [(k, v)]

/-- Abstract id of the fixed path `SARIMA_MODEL_FILE`
(src/config.py line 32). -/
def SARIMA_MODEL_FILE : ℕ := 0

/-- Abstract id of the fixed path `MODEL_METADATA_FILE`
(src/config.py line 33). -/
def MODEL_METADATA_FILE : ℕ := 1

/-- Stat data of a file on disk (`Path.stat()`): size in bytes and
modification time. -/
structure FileStat where
  size : ℕ
  mtime : ℕ
deriving DecidableEq

/-- The filesystem state seen by the Model Store: the single model
artifact slot (the pickled model of opaque type M together with its stat
data) and the single metadata JSON slot. -/
structure StoreFS (M : Type) where
  modelFile : Option (M × FileStat)
  metaFile : Option MetaDict

/-- Python truthiness of the `metadata` argument (`if metadata:` on line
31 of src/model_utils.py): `None` and the empty dict are falsy. -/
def truthy : Option MetaDict → Bool
  | none => false
  | some d => !d.isEmpty

/-- Embedding of `save_model` (src/model_utils.py lines 14-44).  The two
fallible I/O effects — `joblib.dump` of the artifact and the metadata
file write — are the Boolean parameters `dumpOk` and `writeOk` (false
models a raised OSError-like failure at that step); `now` is the
`datetime.now().isoformat()` timestamp and `stat` the resulting artifact
stat.  Every exception is caught by the `try/except` and turned into the
return value False, so the embedding is a total function returning the
Boolean result and the resulting filesystem state. -/
def save_model {M : Type} (fs : StoreFS M) (now : ℕ) (stat : FileStat)
    (dumpOk writeOk : Bool) (model : M) (metadata : Option MetaDict) :
    Bool × StoreFS M :=
  if dumpOk then
    let fs1 : StoreFS M := { fs with modelFile := some (model, stat) }
    match metadata with
    | some d =>
        if d.isEmpty then (true, fs1)
        else
          let d1 := setKey (setKey d .saved_at now) .model_file
            SARIMA_MODEL_FILE
          if writeOk then (true, { fs1 with metaFile := some d1 })
          else (false, fs1)
    | none => (true, fs1)
  else (false, fs)

/-- Failure of `load_model` (src/model_utils.py lines 46-85): the only
raise path reachable in the embedding is the FileNotFoundError on an
absent artifact. -/
inductive LoadError where
  | modelNotFound
deriving DecidableEq

/-- Embedding of `load_model` (src/model_utils.py lines 46-85): raises
FileNotFoundError when the artifact is absent; otherwise unpickles and
returns the model.  When `check_metadata` is true and the metadata file
exists, the metadata is read and logged (lines 70-76) — it is displayed
only and has no effect on the returned model, so the embedding returns
the model unconditionally. -/
def load_model {M : Type} (fs : StoreFS M) (check_metadata : Bool) :
    Except LoadError M :=
  match fs.modelFile with
  | none => .error .modelNotFound
  | some mf => .ok mf.1

/-- The record returned by `get_model_info` (src/model_utils.py lines
87-111): the four unconditional keys, the two keys added only when the
artifact file exists, and the metadata added only when the metadata file
exists (paths as abstract ids; the size is reported in MB, i.e. divided
by 1024 * 1024). -/
structure ModelInfo where
  model_exists : Bool
  model_path : ℕ
  metadata_exists : Bool
  metadata_path : ℕ
  model_size_mb : Option ℚ
  model_modified : Option ℕ
  metadata : Option MetaDict
deriving DecidableEq

/-- Embedding of `get_model_info` (src/model_utils.py lines 87-111): pure
read-only introspection of the filesystem state; it has no raise path.
Note the metadata key is filled whenever the metadata file exists,
independently of whether the model artifact exists. -/
def get_model_info {M : Type} (fs : StoreFS M) : ModelInfo :=
  { model_exists := fs.modelFile.isSome
    model_path := SARIMA_MODEL_FILE
    metadata_exists := fs.metaFile.isSome
    metadata_path := MODEL_METADATA_FILE
    model_size_mb := fs.modelFile.map fun mf => (mf.2.size : ℚ) / (1024 * 1024)
    model_modified := fs.modelFile.map fun mf => mf.2.mtime
    metadata := fs.metaFile }

/-- A filesystem state with no model artifact but a leftover metadata
file (for example after the artifact was deleted externally). -/
def orphanMetaFS : StoreFS Unit := ⟨none, some [(MetaKey.aic, 5)]⟩

end ModelUtils

namespace Forecast

/-- Embedding of the forecast horizon constant (src/config.py line 38). -/
def FORECAST_HORIZON : ℕ := 12

/-- The fitted-model handle as the forecaster uses it: the end date of
the TimeSeries bound at fit time (months since an epoch), and the opaque
engine forecast operation `get_forecast(steps)` returning one
(predicted_mean, lower, upper) row per step. -/
structure SarimaFitted where
  seriesEnd : ℕ
  fc : ℕ → List (ℚ × ℚ × ℚ)

/-- Failure taxonomy of the forecast entry point.  `staleModel` is the
StaleModelError named by the spec (sections 4.6 and 7); the embedding
shows the code never produces it. -/
inductive ForecastError where
  | modelNotFound
  | staleModel
  | loadFailed
  | fitFailed
deriving DecidableEq

/-- Embedding of `forecast_next` (src/forecast.py lines 61-65): delegate
to the fitted model's `get_forecast` with the requested number of
steps. -/
def forecast_next (m : SarimaFitted) (steps : ℕ) : List (ℚ × ℚ × ℚ) :=
  m.fc steps

/-- Embedding of `main` (src/forecast.py lines 67-111): consult
`get_model_info`; when the artifact exists, load it with
`load_model(check_metadata=True)` (which only displays the metadata);
otherwise load the sales CSV and train a fallback model (`fallbackFit`,
opaque; `none` models a fit that raises).  Then reload the sales CSV for
plotting and produce the 12-month forecast.  `csv = none` models a
missing cleaned-data file (exit 1).  No comparison of the model against
the on-disk metadata occurs anywhere on the path. -/
def forecastMain (fs : ModelUtils.StoreFS SarimaFitted)
    (csv : Option (List ℚ))
    (fallbackFit : List ℚ → Option SarimaFitted) :
    Except ForecastError (List (ℚ × ℚ × ℚ)) :=
  let modelE : Except ForecastError SarimaFitted :=
    if (ModelUtils.get_model_info fs).model_exists then
      match ModelUtils.load_model fs true with
      | .error _ => .error .modelNotFound
      | .ok m => .ok m
    else
      match csv with
      | none => .error .loadFailed
      | some s =>
          match fallbackFit s with
          | none => .error .fitFailed
          | some m => .ok m
  match modelE with
  | .error e => .error e
  | .ok m =>
      match csv with
      | none => .error .loadFailed
      | some _ => .ok (forecast_next m FORECAST_HORIZON)

/-- The value recorded under the date_range key of the on-disk metadata,
when present: the spec-side reading of the metadata used to define
staleness. -/
def recordedEnd (md : ModelUtils.MetaDict) : Option ℕ :=
  (md.find? fun kv => kv.1 = ModelUtils.MetaKey.date_range).map fun kv =>
    kv.2

/-- Modelled from the spec (sections 4.6 and 4.7), not from the code —
the code contains no such predicate: a loaded model is stale when the end
date of its bound TimeSeries is inconsistent with the date range recorded
in the metadata on disk. -/
def staleAgainst (m : SarimaFitted) (md : ModelUtils.MetaDict) : Prop :=
  recordedEnd md ≠ some m.seriesEnd

/-- A fitted model whose bound series ends at month 5, forecasting a
constant 100 with the interval [90, 110]. -/
def staleModelHandle : SarimaFitted :=
  ⟨5, fun n => List.replicate n (100, 90, 110)⟩

/-- A filesystem state holding that model together with metadata whose
recorded date range ends at month 9 — inconsistent with the model. -/
def staleFS : ModelUtils.StoreFS SarimaFitted :=
  ⟨some (staleModelHandle, ⟨3, 3⟩),
    some [(ModelUtils.MetaKey.date_range, 9)]⟩

/-- A 30-month constant sales history used as the CSV contents. -/
def salesCsv : List ℚ := List.replicate 30 100

/-- A fallback fit stub (never reached when the artifact exists). -/
def fallbackFitStub : List ℚ → Option SarimaFitted := fun _ => none

end Forecast

/-- Counterexample to claim C6 as stated: on the 12-month series with
holdout 12, the train split is empty, yet the evaluation run does not
fail with InsufficientDataError — no such check exists in
src/model_evaluation.py; the run proceeds straight to the engine fit. -/
theorem C6_empty_train_no_error_cex :
    (ModelEvaluation.trainTestSplit ModelEvaluation.emptyTrainSeries 12).1 =
        [] ∧
      ModelEvaluation.evaluateRun ModelEvaluation.constFit
          ModelEvaluation.emptyTrainSeries 12 ≠
        Except.error ModelEvaluation.EvalError.insufficientData := by
  constructor
  · decide
  · simp [ModelEvaluation.evaluateRun, ModelEvaluation.constFit]

/-- Claim C6 (amended), settled for every holdout size: for a positive
holdout the split is train = all but the last holdout periods and test =
the last holdout periods (with exactly holdout test elements whenever the
series is long enough); at holdout 0 the Python slices `[:-0]`/`[-0:]`
invert the split to train = [] and test = the whole series; in every case
train and test are disjoint and jointly cover the series; and no
InsufficientDataError is ever raised: with an empty train split the run
still proceeds to the engine fit. -/
theorem C6_split_spec (s : List ℚ) (h : ℕ) :
    (h ≠ 0 →
        (ModelEvaluation.trainTestSplit s h).1 =
            s.take (s.length - h) ∧
          (ModelEvaluation.trainTestSplit s h).2 =
            s.drop (s.length - h) ∧
          (h ≤ s.length →
            (ModelEvaluation.trainTestSplit s h).2.length = h)) ∧
      (h = 0 → ModelEvaluation.trainTestSplit s h = ([], s)) ∧
      (ModelEvaluation.trainTestSplit s h).1 ++
          (ModelEvaluation.trainTestSplit s h).2 = s ∧
      ∀ fit, ModelEvaluation.evaluateRun fit s h ≠
        Except.error ModelEvaluation.EvalError.insufficientData := by
  refine ⟨?_, ?_, ?_, ?_⟩
  · intro hne
    refine ⟨?_, ?_, ?_⟩
    · simp [ModelEvaluation.trainTestSplit, hne]
    · simp [ModelEvaluation.trainTestSplit, hne]
    · intro hle
      simp [ModelEvaluation.trainTestSplit, hne]
      omega
  · intro h0
    subst h0
    simp [ModelEvaluation.trainTestSplit]
  · by_cases hne : h = 0
    · subst hne
      simp [ModelEvaluation.trainTestSplit]
    · simp [ModelEvaluation.trainTestSplit, hne]
  · intro fit
    unfold ModelEvaluation.evaluateRun
    cases hf : fit (ModelEvaluation.trainTestSplit s h).1 <;> simp [hf]

/-- Witness for C6 (amended) at the series [1, 2, 3]: with holdout 2,
train = [1] and test = [2, 3] of length 2, their concatenation is the
series, and no run yields InsufficientDataError; with holdout 0 the
split inverts to ([], [1, 2, 3]). -/
theorem C6_split_spec_witness :
    ((2 : ℕ) ≠ 0 ∧
        ((ModelEvaluation.trainTestSplit [(1 : ℚ), 2, 3] 2).1 =
            [(1 : ℚ), 2, 3].take ([(1 : ℚ), 2, 3].length - 2) ∧
          (ModelEvaluation.trainTestSplit [(1 : ℚ), 2, 3] 2).2 =
            [(1 : ℚ), 2, 3].drop ([(1 : ℚ), 2, 3].length - 2) ∧
          (2 ≤ [(1 : ℚ), 2, 3].length →
            (ModelEvaluation.trainTestSplit [(1 : ℚ), 2, 3] 2).2.length =
              2))) ∧
      ModelEvaluation.trainTestSplit [(1 : ℚ), 2, 3] 0 =
        ([], [(1 : ℚ), 2, 3]) ∧
      (ModelEvaluation.trainTestSplit [(1 : ℚ), 2, 3] 2).1 ++
          (ModelEvaluation.trainTestSplit [(1 : ℚ), 2, 3] 2).2 =
        [(1 : ℚ), 2, 3] ∧
      ∀ fit, ModelEvaluation.evaluateRun fit [(1 : ℚ), 2, 3] 2 ≠
        Except.error ModelEvaluation.EvalError.insufficientData :=
  ⟨⟨by decide, (C6_split_spec [(1 : ℚ), 2, 3] 2).1 (by decide)⟩,
    (C6_split_spec [(1 : ℚ), 2, 3] 0).2.1 rfl,
    (C6_split_spec [(1 : ℚ), 2, 3] 2).2.2.1,
    (C6_split_spec [(1 : ℚ), 2, 3] 2).2.2.2⟩

/-- Counterexample to claim C3 as stated: on the series [50, 0] with
holdout 1 the single test actual is exactly zero, yet the MAPE
computation does not fail with DivisionByZeroError — the numpy division
yields +inf and the run returns the metrics record. -/
theorem C3_zero_actual_no_error_cex :
    (ModelEvaluation.trainTestSplit ModelEvaluation.zeroActualSeries 1).2 =
        [0] ∧
      ModelEvaluation.evaluateRun ModelEvaluation.fortyFit
          ModelEvaluation.zeroActualSeries 1 =
        Except.ok ⟨40, 1600, ModelEvaluation.PyFloat.posInf⟩ ∧
      ModelEvaluation.evaluateRun ModelEvaluation.fortyFit
          ModelEvaluation.zeroActualSeries 1 ≠
        Except.error ModelEvaluation.EvalError.divisionByZero := by
  refine ⟨by decide, ?_, ?_⟩
  · norm_num [ModelEvaluation.evaluateRun, ModelEvaluation.fortyFit,
      ModelEvaluation.trainTestSplit, ModelEvaluation.zeroActualSeries,
      ModelEvaluation.mae, ModelEvaluation.mse, ModelEvaluation.mean,
      ModelEvaluation.qabs, ModelEvaluation.mapeFloat,
      ModelEvaluation.pfDiv, ModelEvaluation.pfAbs, ModelEvaluation.pfAdd,
      ModelEvaluation.pfMeanDiv, ModelEvaluation.pfScale100]
  · simp [ModelEvaluation.evaluateRun, ModelEvaluation.fortyFit]

/-- Claim C3 (amended): the MAPE computation never fails with
DivisionByZeroError; whenever the engine fit converges, the run returns
the metrics record, the zero-actual divisions having produced IEEE
infinity/NaN values inside the MAPE number instead of an error. -/
theorem C3_mape_never_raises (fit : List ℚ → Option (List ℚ)) (s : List ℚ)
    (h : ℕ) :
    ModelEvaluation.evaluateRun fit s h ≠
        Except.error ModelEvaluation.EvalError.divisionByZero ∧
      ∀ preds, fit (ModelEvaluation.trainTestSplit s h).1 = some preds →
        ModelEvaluation.evaluateRun fit s h =
          Except.ok
            ⟨ModelEvaluation.mae (ModelEvaluation.trainTestSplit s h).2 preds,
              ModelEvaluation.mse (ModelEvaluation.trainTestSplit s h).2 preds,
              ModelEvaluation.mapeFloat
                (ModelEvaluation.trainTestSplit s h).2 preds⟩ := by
  constructor
  · unfold ModelEvaluation.evaluateRun
    cases hf : fit (ModelEvaluation.trainTestSplit s h).1 <;> simp [hf]
  · intro preds hp
    unfold ModelEvaluation.evaluateRun
    rw [hp]

/-- Witness for C3 (amended) at the series [50, 0] with holdout 1 and the
always-converging fit predicting 40: the run returns the metrics record
(whose MAPE is +inf) and is not a DivisionByZeroError. -/
theorem C3_mape_never_raises_witness :
    ModelEvaluation.fortyFit
        (ModelEvaluation.trainTestSplit ModelEvaluation.zeroActualSeries 1).1 =
        some [40] ∧
      ModelEvaluation.evaluateRun ModelEvaluation.fortyFit
          ModelEvaluation.zeroActualSeries 1 =
        Except.ok
          ⟨ModelEvaluation.mae
              (ModelEvaluation.trainTestSplit
                ModelEvaluation.zeroActualSeries 1).2 [40],
            ModelEvaluation.mse
              (ModelEvaluation.trainTestSplit
                ModelEvaluation.zeroActualSeries 1).2 [40],
            ModelEvaluation.mapeFloat
              (ModelEvaluation.trainTestSplit
                ModelEvaluation.zeroActualSeries 1).2 [40]⟩ :=
  ⟨by decide,
    (C3_mape_never_raises ModelEvaluation.fortyFit
        ModelEvaluation.zeroActualSeries 1).2 [40] (by decide)⟩

theorem ModelEvaluation.qabs_nonneg (q : ℚ) : 0 ≤ ModelEvaluation.qabs q := by
  unfold ModelEvaluation.qabs
  split <;> linarith

theorem ModelEvaluation.qabs_mul_self (q : ℚ) :
    ModelEvaluation.qabs q * ModelEvaluation.qabs q = q * q := by
  unfold ModelEvaluation.qabs
  split <;> ring

theorem ModelEvaluation.forall_mem_zipWith_nonneg
    {f : ℚ → ℚ → ℚ} (hf : ∀ a b, 0 ≤ f a b) :
    ∀ (t p : List ℚ), ∀ x ∈ List.zipWith f t p, 0 ≤ x := by
  intro t
  induction t with
  | nil => intro p x hx; simp at hx
  | cons a t ih =>
    intro p x hx
    cases p with
    | nil => simp at hx
    | cons b p =>
        rcases (List.mem_cons).mp hx with rfl | hx2
        · exact hf a b
        · exact ih p x hx2

theorem ModelEvaluation.mean_nonneg {l : List ℚ} (h : ∀ x ∈ l, 0 ≤ x) :
    0 ≤ ModelEvaluation.mean l :=
  div_nonneg (List.sum_nonneg h) (Nat.cast_nonneg _)

theorem ModelEvaluation.zipWith_sq_eq_map_sq (t p : List ℚ) :
    List.zipWith (fun a b => (a - b) * (a - b)) t p =
      (List.zipWith (fun a b => ModelEvaluation.qabs (a - b)) t p).map
        fun x => x * x := by
  induction t generalizing p with
  | nil => simp
  | cons a t ih =>
    cases p with
    | nil => simp
    | cons b p =>
        simp only [List.zipWith, List.map]
        rw [ModelEvaluation.qabs_mul_self, ih]

theorem ModelEvaluation.sq_sum_le_length_mul_sum_sq (l : List ℚ) :
    l.sum * l.sum ≤ (l.length : ℚ) * (l.map fun x => x * x).sum := by
  induction l with
  | nil => simp
  | cons x t ih =>
    have hT : 0 ≤ (t.map fun x => x * x).sum := by
      apply List.sum_nonneg
      intro y hy
      obtain ⟨z, _, rfl⟩ := List.mem_map.mp hy
      exact mul_self_nonneg z
    rcases Nat.eq_zero_or_pos t.length with h0 | hpos
    · obtain rfl : t = [] := List.length_eq_zero.mp h0
      simp
    · have hn : (0 : ℚ) < (t.length : ℚ) := by exact_mod_cast hpos
      have hB := mul_le_mul_of_nonneg_left ih hn.le
      simp only [List.sum_cons, List.map, List.length_cons]
      push_cast
      nlinarith [ih, hT, hn, hB, sq_nonneg ((t.length : ℚ) * x - t.sum)]

theorem ModelEvaluation.sq_mean_le_mean_sq (l : List ℚ) :
    ModelEvaluation.mean l * ModelEvaluation.mean l ≤
      ModelEvaluation.mean (l.map fun x => x * x) := by
  cases l with
  | nil => simp [ModelEvaluation.mean]
  | cons y t =>
    have hlen : (0 : ℚ) < ((y :: t).length : ℚ) := by
      exact_mod_cast Nat.succ_pos t.length
    unfold ModelEvaluation.mean
    rw [List.length_map]
    rw [div_mul_div_comm, div_le_div_iff₀ (by positivity) hlen]
    have h2 := mul_le_mul_of_nonneg_right
      (ModelEvaluation.sq_sum_le_length_mul_sum_sq (y :: t)) hlen.le
    nlinarith [h2]

theorem ModelEvaluation.mse_nonneg (test pred : List ℚ) :
    0 ≤ ModelEvaluation.mse test pred := by
  apply ModelEvaluation.mean_nonneg
  exact ModelEvaluation.forall_mem_zipWith_nonneg
    (fun a b => mul_self_nonneg (a - b)) test pred

theorem ModelEvaluation.mae_nonneg (test pred : List ℚ) :
    0 ≤ ModelEvaluation.mae test pred := by
  apply ModelEvaluation.mean_nonneg
  exact ModelEvaluation.forall_mem_zipWith_nonneg
    (fun a b => ModelEvaluation.qabs_nonneg (a - b)) test pred

theorem ModelEvaluation.mae_le_rmse (test pred : List ℚ) :
    (ModelEvaluation.mae test pred : ℝ) ≤ ModelEvaluation.rmse test pred := by
  unfold ModelEvaluation.rmse
  rw [Real.le_sqrt (by exact_mod_cast ModelEvaluation.mae_nonneg test pred)
    (by exact_mod_cast ModelEvaluation.mse_nonneg test pred)]
  have key : ModelEvaluation.mae test pred * ModelEvaluation.mae test pred ≤
      ModelEvaluation.mse test pred := by
    unfold ModelEvaluation.mae ModelEvaluation.mse
    rw [ModelEvaluation.zipWith_sq_eq_map_sq]
    exact ModelEvaluation.sq_mean_le_mean_sq _
  rw [sq]
  exact_mod_cast key

/-- Claim C7: for every pair of equal-length actual and predicted
sequences (nonempty, and with nonzero actuals so that the MAPE is on its
defined domain), the evaluator's MAE, RMSE and MAPE are non-negative and
its RMSE is at least its MAE (the Cauchy-Schwarz relation between the
quadratic and the absolute mean error). -/
theorem C7_metric_inequalities (test pred : List ℚ)
    (hlen : test.length = pred.length) (hne : test ≠ [])
    (hz : ∀ x ∈ test, x ≠ 0) :
    0 ≤ ModelEvaluation.mae test pred ∧
      0 ≤ ModelEvaluation.rmse test pred ∧
      0 ≤ ModelEvaluation.mape test pred ∧
      (ModelEvaluation.mae test pred : ℝ) ≤ ModelEvaluation.rmse test pred :=
  ⟨ModelEvaluation.mae_nonneg test pred,
    Real.sqrt_nonneg _,
    mul_nonneg
      (ModelEvaluation.mean_nonneg
        (ModelEvaluation.forall_mem_zipWith_nonneg
          (fun a b => ModelEvaluation.qabs_nonneg ((a - b) / a)) test pred))
      (by norm_num),
    ModelEvaluation.mae_le_rmse test pred⟩

/-- Witness for C7 at actuals [1, 2] and predictions [3, 1]: the
sequences have equal length 2, are nonempty, the actuals are nonzero, and
the four metric inequalities hold there. -/
theorem C7_metric_inequalities_witness :
    ([(1 : ℚ), 2].length = [(3 : ℚ), 1].length ∧ [(1 : ℚ), 2] ≠ [] ∧
        ∀ x ∈ [(1 : ℚ), 2], x ≠ 0) ∧
      (0 ≤ ModelEvaluation.mae [(1 : ℚ), 2] [(3 : ℚ), 1] ∧
        0 ≤ ModelEvaluation.rmse [(1 : ℚ), 2] [(3 : ℚ), 1] ∧
        0 ≤ ModelEvaluation.mape [(1 : ℚ), 2] [(3 : ℚ), 1] ∧
        (ModelEvaluation.mae [(1 : ℚ), 2] [(3 : ℚ), 1] : ℝ) ≤
          ModelEvaluation.rmse [(1 : ℚ), 2] [(3 : ℚ), 1]) :=
  ⟨⟨by decide, by decide, by decide⟩,
    C7_metric_inequalities [(1 : ℚ), 2] [(3 : ℚ), 1] (by decide) (by decide)
      (by decide)⟩

theorem HyperparameterTuning.length_flatMap_const {α β : Type}
    (l : List α) (f : α → List β) (k : ℕ) (h : ∀ a, (f a).length = k) :
    (l.flatMap f).length = l.length * k := by
  induction l with
  | nil => simp
  | cons a t ih =>
    simp only [List.flatMap_cons, List.length_append, List.length_cons, ih,
      h a]
    ring

theorem HyperparameterTuning.allCombos_length (pr dr qr Pr Dr Qr : ℕ × ℕ) :
    (HyperparameterTuning.allCombos pr dr qr Pr Dr Qr).length =
      HyperparameterTuning.total_combos pr dr qr Pr Dr Qr := by
  unfold HyperparameterTuning.allCombos HyperparameterTuning.total_combos
  rw [HyperparameterTuning.length_flatMap_const]
  intro p
  rw [HyperparameterTuning.length_flatMap_const]
  intro d
  rw [HyperparameterTuning.length_flatMap_const]
  intro q
  rw [HyperparameterTuning.length_flatMap_const]
  intro P
  rw [HyperparameterTuning.length_flatMap_const]
  intro D
  exact List.length_map _ _

theorem HyperparameterTuning.combo_of_mem_grid
    (fit : HyperparameterTuning.SarimaCombo → Option (ℚ × ℚ))
    (pr dr qr Pr Dr Qr : ℕ × ℕ) (e : HyperparameterTuning.GridEntry)
    (he : e ∈ HyperparameterTuning.grid_search_sarima fit pr dr qr Pr Dr Qr) :
    ∃ ab, fit e.combo = some ab ∧ e.aic = ab.1 ∧ e.bic = ab.2 := by
  unfold HyperparameterTuning.grid_search_sarima at he
  rw [List.mem_insertionSort] at he
  obtain ⟨c, _, hc⟩ := List.mem_filterMap.mp he
  obtain ⟨ab, hab, rfl⟩ := Option.map_eq_some'.mp hc
  exact ⟨ab, hab, rfl, rfl⟩

/-- Counterexample to claim C1 as stated: with every range degenerate
except Q ∈ {0, 1} and a fit in which both combinations tie at AIC 1 but
the earlier-enumerated one has the larger BIC (5 versus 3), the returned
result keeps the enumeration order, so equal-AIC entries are NOT ordered
by BIC ascending. -/
theorem C1_bic_tiebreak_cex :
    ¬ List.Pairwise HyperparameterTuning.specRankLe
      (HyperparameterTuning.grid_search_sarima HyperparameterTuning.tieFit
        (0, 0) (0, 0) (0, 0) (0, 0) (0, 0) (0, 1)) := by
  decide

/-- Claim C1 (amended): the GridSearchResult returned by the order search
is sorted ascending by AIC; no BIC or lexicographic tie-break is applied
to equal-AIC entries (the sort key is the AIC column alone). -/
theorem C1_sorted_by_aic
    (fit : HyperparameterTuning.SarimaCombo → Option (ℚ × ℚ))
    (pr dr qr Pr Dr Qr : ℕ × ℕ) :
    List.Sorted HyperparameterTuning.aicLe
      (HyperparameterTuning.grid_search_sarima fit pr dr qr Pr Dr Qr) :=
  List.sorted_insertionSort HyperparameterTuning.aicLe _

/-- Claim C8: a parameter combination whose fit raises is absent from the
returned GridSearchResult (its row is dropped, not replaced by a
placeholder), and the number of result rows is at most the size of the
Cartesian product of the six inclusive ranges. -/
theorem C8_failed_fits_dropped
    (fit : HyperparameterTuning.SarimaCombo → Option (ℚ × ℚ))
    (pr dr qr Pr Dr Qr : ℕ × ℕ) :
    (HyperparameterTuning.grid_search_sarima fit pr dr qr Pr Dr Qr).length ≤
        HyperparameterTuning.total_combos pr dr qr Pr Dr Qr ∧
      ∀ c, fit c = none →
        ∀ e ∈ HyperparameterTuning.grid_search_sarima fit pr dr qr Pr Dr Qr,
          e.combo ≠ c := by
  constructor
  · unfold HyperparameterTuning.grid_search_sarima
    rw [List.length_insertionSort]
    refine le_trans (List.length_filterMap_le _ _) ?_
    rw [HyperparameterTuning.allCombos_length]
  · intro c hc e he heq
    obtain ⟨ab, hab, -, -⟩ :=
      HyperparameterTuning.combo_of_mem_grid fit pr dr qr Pr Dr Qr e he
    rw [heq, hc] at hab
    exact Option.noConfusion hab

/-- Witness for C8 with every range degenerate except Q ∈ {0, 1} and a
fit in which the Q = 1 combination raises: that combination is absent
from the result, and the result size is within the Cartesian-product
bound 2. -/
theorem C8_failed_fits_dropped_witness :
    HyperparameterTuning.dropFit ⟨0, 0, 0, 0, 0, 1⟩ = none ∧
      (HyperparameterTuning.grid_search_sarima HyperparameterTuning.dropFit
          (0, 0) (0, 0) (0, 0) (0, 0) (0, 0) (0, 1)).length ≤
        HyperparameterTuning.total_combos (0, 0) (0, 0) (0, 0) (0, 0)
          (0, 0) (0, 1) ∧
      ∀ e ∈ HyperparameterTuning.grid_search_sarima
          HyperparameterTuning.dropFit (0, 0) (0, 0) (0, 0) (0, 0) (0, 0)
          (0, 1), e.combo ≠ ⟨0, 0, 0, 0, 0, 1⟩ :=
  ⟨by decide,
    (C8_failed_fits_dropped HyperparameterTuning.dropFit (0, 0) (0, 0)
        (0, 0) (0, 0) (0, 0) (0, 1)).1,
    (C8_failed_fits_dropped HyperparameterTuning.dropFit (0, 0) (0, 0)
        (0, 0) (0, 0) (0, 0) (0, 1)).2 ⟨0, 0, 0, 0, 0, 1⟩ (by decide)⟩

/-- Claim C2: training on a series shorter than 24 months fails with
InsufficientDataError (the hard 24-month precondition checked before any
fit), and training on a series of exactly 24 months with a convergent
order succeeds and returns the fitted model. -/
theorem C2_train_min_length {M : Type} (fit : List ℚ → Option M)
    (s : List ℚ) :
    (s.length < 24 →
        TrainSarima.trainPipeline fit (some s) =
          Except.error TrainSarima.TrainError.insufficientData) ∧
      (s.length = 24 → ∀ m, fit s = some m →
        TrainSarima.trainPipeline fit (some s) = Except.ok m) := by
  constructor
  · intro hshort
    have hload : TrainSarima.load_monthly_sales (some s) =
        Except.error TrainSarima.TrainError.insufficientData := by
      simp [TrainSarima.load_monthly_sales, hshort]
    unfold TrainSarima.trainPipeline
    rw [hload]
    rfl
  · intro h24 m hm
    have hload : TrainSarima.load_monthly_sales (some s) = Except.ok s := by
      simp [TrainSarima.load_monthly_sales, h24]
    unfold TrainSarima.trainPipeline
    rw [hload]
    simp [Except.bind, TrainSarima.train_sarima, hm]

/-- Witness for C2: the 23-month series fails with InsufficientDataError
even under a convergent fit, while the 24-month series with the same
convergent fit trains successfully and returns the fitted handle. -/
theorem C2_train_min_length_witness :
    (TrainSarima.series23.length < 24 ∧
        TrainSarima.trainPipeline TrainSarima.okFit
            (some TrainSarima.series23) =
          Except.error TrainSarima.TrainError.insufficientData) ∧
      (TrainSarima.series24.length = 24 ∧
        TrainSarima.okFit TrainSarima.series24 = some 7 ∧
        TrainSarima.trainPipeline TrainSarima.okFit
            (some TrainSarima.series24) = Except.ok 7) :=
  ⟨⟨by decide,
      (C2_train_min_length TrainSarima.okFit TrainSarima.series23).1
        (by decide)⟩,
    ⟨by decide, by decide,
      (C2_train_min_length TrainSarima.okFit TrainSarima.series24).2
        (by decide) 7 (by decide)⟩⟩

/-- Counterexample to claim C4 as stated: a filesystem state whose model
artifact is bound to a series ending at month 5 while the on-disk
metadata records month 9 — stale in the spec's sense — still yields a
12-month forecast, not a StaleModelError: src/forecast.py performs no
consistency check (load_model only displays the metadata). -/
theorem C4_stale_metadata_cex :
    Forecast.staleAgainst Forecast.staleModelHandle
        [(ModelUtils.MetaKey.date_range, 9)] ∧
      Forecast.staleFS.metaFile = some [(ModelUtils.MetaKey.date_range, 9)] ∧
      Forecast.forecastMain Forecast.staleFS (some Forecast.salesCsv)
          Forecast.fallbackFitStub =
        Except.ok (List.replicate 12 ((100 : ℚ), (90 : ℚ), (110 : ℚ))) ∧
      Forecast.forecastMain Forecast.staleFS (some Forecast.salesCsv)
          Forecast.fallbackFitStub ≠
        Except.error Forecast.ForecastError.staleModel := by
  refine ⟨?_, rfl, rfl, ?_⟩
  · unfold Forecast.staleAgainst Forecast.recordedEnd
      Forecast.staleModelHandle
    decide
  · intro hcontra
    exact Except.noConfusion
      ((rfl :
        Forecast.forecastMain Forecast.staleFS (some Forecast.salesCsv)
            Forecast.fallbackFitStub =
          Except.ok
            (List.replicate 12 ((100 : ℚ), (90 : ℚ), (110 : ℚ)))).symm.trans
        hcontra)

/-- Claim C4 (amended): the forecast operation performs no staleness
check at all — it can never fail with StaleModelError, and whenever the
model artifact exists and the sales CSV loads, it returns the model's
12-month forecast regardless of any inconsistency between the model and
the metadata on disk. -/
theorem C4_no_staleness_check (fs : ModelUtils.StoreFS Forecast.SarimaFitted)
    (csv : Option (List ℚ))
    (fallbackFit : List ℚ → Option Forecast.SarimaFitted) :
    Forecast.forecastMain fs csv fallbackFit ≠
        Except.error Forecast.ForecastError.staleModel ∧
      ∀ mf s, fs.modelFile = some mf → csv = some s →
        Forecast.forecastMain fs csv fallbackFit =
          Except.ok (Forecast.forecast_next mf.1 Forecast.FORECAST_HORIZON) := by
  constructor
  · rcases hmf : fs.modelFile with - | mf
    · rcases csv with - | s
      · simp [Forecast.forecastMain, ModelUtils.get_model_info, hmf]
      · rcases hfb : fallbackFit s with - | m <;>
          simp [Forecast.forecastMain, ModelUtils.get_model_info, hmf, hfb]
    · rcases csv with - | s <;>
        simp [Forecast.forecastMain, ModelUtils.get_model_info,
          ModelUtils.load_model, hmf]
  · intro mf s hmf hcsv
    subst hcsv
    simp [Forecast.forecastMain, ModelUtils.get_model_info,
      ModelUtils.load_model, hmf]

/-- Witness for C4 (amended) at the stale filesystem state: the artifact
exists, the CSV loads, and the forecast of the (stale) model is returned;
in particular no StaleModelError. -/
theorem C4_no_staleness_check_witness :
    Forecast.staleFS.modelFile =
        some (Forecast.staleModelHandle, ⟨3, 3⟩) ∧
      Forecast.forecastMain Forecast.staleFS (some Forecast.salesCsv)
          Forecast.fallbackFitStub ≠
        Except.error Forecast.ForecastError.staleModel ∧
      Forecast.forecastMain Forecast.staleFS (some Forecast.salesCsv)
          Forecast.fallbackFitStub =
        Except.ok (Forecast.forecast_next Forecast.staleModelHandle
          Forecast.FORECAST_HORIZON) :=
  ⟨rfl,
    (C4_no_staleness_check Forecast.staleFS (some Forecast.salesCsv)
        Forecast.fallbackFitStub).1,
    (C4_no_staleness_check Forecast.staleFS (some Forecast.salesCsv)
        Forecast.fallbackFitStub).2 (Forecast.staleModelHandle, ⟨3, 3⟩)
      Forecast.salesCsv rfl rfl⟩

/-- Counterexample to claim C9 as stated: on a filesystem state with no
model artifact but a leftover metadata file, `get_model_info` reports
exists = false AND the stored metadata — the metadata key is filled
whenever the metadata file exists, independently of the artifact. -/
theorem C9_orphan_metadata_cex :
    (ModelUtils.get_model_info ModelUtils.orphanMetaFS).model_exists =
        false ∧
      (ModelUtils.get_model_info ModelUtils.orphanMetaFS).metadata =
        some [(ModelUtils.MetaKey.aic, 5)] :=
  ⟨rfl, rfl⟩

/-- Claim C9 (amended): `get_model_info` is a total read-only function
(it never raises).  When the artifact is absent it reports exists = false
with no size/modified fields; when the artifact is present it reports the
path, size (in MB) and modification time; and the stored metadata is
reported exactly when the metadata file exists — regardless of whether
the artifact does. -/
theorem C9_info_spec {M : Type} (fs : ModelUtils.StoreFS M) :
    (ModelUtils.get_model_info fs).model_exists = fs.modelFile.isSome ∧
      (ModelUtils.get_model_info fs).model_path =
        ModelUtils.SARIMA_MODEL_FILE ∧
      (ModelUtils.get_model_info fs).metadata_exists = fs.metaFile.isSome ∧
      (ModelUtils.get_model_info fs).metadata_path =
        ModelUtils.MODEL_METADATA_FILE ∧
      (fs.modelFile = none →
        (ModelUtils.get_model_info fs).model_exists = false ∧
          (ModelUtils.get_model_info fs).model_size_mb = none ∧
          (ModelUtils.get_model_info fs).model_modified = none) ∧
      (∀ m stat, fs.modelFile = some (m, stat) →
        (ModelUtils.get_model_info fs).model_exists = true ∧
          (ModelUtils.get_model_info fs).model_size_mb =
            some ((stat.size : ℚ) / (1024 * 1024)) ∧
          (ModelUtils.get_model_info fs).model_modified = some stat.mtime) ∧
      (ModelUtils.get_model_info fs).metadata = fs.metaFile := by
  refine ⟨rfl, rfl, rfl, rfl, ?_, ?_, rfl⟩
  · intro hnone
    simp [ModelUtils.get_model_info, hnone]
  · intro m stat hsome
    simp [ModelUtils.get_model_info, hsome]

/-- Witness for C9 (amended) at the artifact-less state with a leftover
metadata file: exists is false, size and modified time are absent, and
the metadata is still reported. -/
theorem C9_info_spec_witness :
    ModelUtils.orphanMetaFS.modelFile = none ∧
      (ModelUtils.get_model_info ModelUtils.orphanMetaFS).model_exists =
          false ∧
        (ModelUtils.get_model_info ModelUtils.orphanMetaFS).model_size_mb =
          none ∧
        (ModelUtils.get_model_info ModelUtils.orphanMetaFS).model_modified =
          none ∧
      (ModelUtils.get_model_info ModelUtils.orphanMetaFS).metadata =
        ModelUtils.orphanMetaFS.metaFile :=
  ⟨rfl,
    ((C9_info_spec ModelUtils.orphanMetaFS).2.2.2.2.1 rfl).1,
    ((C9_info_spec ModelUtils.orphanMetaFS).2.2.2.2.1 rfl).2.1,
    ((C9_info_spec ModelUtils.orphanMetaFS).2.2.2.2.1 rfl).2.2,
    (C9_info_spec ModelUtils.orphanMetaFS).2.2.2.2.2.2⟩

/-- Claim C10: `save_model` is total — every exception is caught and
converted into the Boolean result.  It returns true exactly when the
artifact dump succeeds and, if the metadata argument is truthy (not None
and not the empty dict), the metadata write also succeeds; on a truthy
metadata argument and overall success the metadata file holds the
argument with the saved_at timestamp and model_file path added; and when
the dump fails the state is untouched and the result is false. -/
theorem C10_save_model_spec {M : Type} (fs : ModelUtils.StoreFS M)
    (now : ℕ) (stat : ModelUtils.FileStat) (dumpOk writeOk : Bool)
    (model : M) (metadata : Option ModelUtils.MetaDict) :
    ((ModelUtils.save_model fs now stat dumpOk writeOk model metadata).1 =
        true ↔
      (dumpOk = true ∧
        (ModelUtils.truthy metadata = true → writeOk = true))) ∧
      (dumpOk = true →
        (ModelUtils.save_model fs now stat dumpOk writeOk model
            metadata).2.modelFile = some (model, stat)) ∧
      (∀ d, metadata = some d → d.isEmpty = false → dumpOk = true →
        writeOk = true →
        (ModelUtils.save_model fs now stat dumpOk writeOk model
            metadata).2.metaFile =
          some (ModelUtils.setKey
            (ModelUtils.setKey d ModelUtils.MetaKey.saved_at now)
            ModelUtils.MetaKey.model_file ModelUtils.SARIMA_MODEL_FILE)) ∧
      (dumpOk = false →
        (ModelUtils.save_model fs now stat dumpOk writeOk model
            metadata).1 = false ∧
          (ModelUtils.save_model fs now stat dumpOk writeOk model
            metadata).2 = fs) := by
  refine ⟨?_, ?_, ?_, ?_⟩
  · cases dumpOk <;> cases writeOk <;>
      rcases metadata with - | (- | ⟨kv, tl⟩) <;>
        simp [ModelUtils.save_model, ModelUtils.truthy]
  · intro hdump
    subst hdump
    rcases metadata with - | d
    · rfl
    · cases writeOk <;> rcases hd : d.isEmpty with - | - <;>
        simp [ModelUtils.save_model, hd]
  · intro d hmd hne hdump hwrite
    subst hmd hdump hwrite
    simp [ModelUtils.save_model, hne]
  · intro hdump
    subst hdump
    exact ⟨rfl, rfl⟩

/-- Witness for C10 with both writes succeeding and a nonempty metadata
dict: the result is true, the artifact slot holds the model, and the
metadata file holds the dict with saved_at and model_file added. -/
theorem C10_save_model_spec_witness :
    (ModelUtils.truthy (some [(ModelUtils.MetaKey.aic, 3)]) = true →
        true = true) ∧
      ((ModelUtils.save_model (⟨none, none⟩ : ModelUtils.StoreFS Unit) 77
          ⟨1, 1⟩ true true () (some [(ModelUtils.MetaKey.aic, 3)])).1 =
        true) ∧
      ((ModelUtils.save_model (⟨none, none⟩ : ModelUtils.StoreFS Unit) 77
          ⟨1, 1⟩ true true () (some [(ModelUtils.MetaKey.aic, 3)])).2.modelFile =
        some ((), ⟨1, 1⟩)) ∧
      ((ModelUtils.save_model (⟨none, none⟩ : ModelUtils.StoreFS Unit) 77
          ⟨1, 1⟩ true true () (some [(ModelUtils.MetaKey.aic, 3)])).2.metaFile =
        some (ModelUtils.setKey
          (ModelUtils.setKey [(ModelUtils.MetaKey.aic, 3)]
            ModelUtils.MetaKey.saved_at 77)
          ModelUtils.MetaKey.model_file ModelUtils.SARIMA_MODEL_FILE)) :=
  ⟨fun _ => rfl,
    (C10_save_model_spec (⟨none, none⟩ : ModelUtils.StoreFS Unit) 77 ⟨1, 1⟩
        true true () (some [(ModelUtils.MetaKey.aic, 3)])).1.mpr
      ⟨rfl, fun _ => rfl⟩,
    (C10_save_model_spec (⟨none, none⟩ : ModelUtils.StoreFS Unit) 77 ⟨1, 1⟩
        true true () (some [(ModelUtils.MetaKey.aic, 3)])).2.1 rfl,
    (C10_save_model_spec (⟨none, none⟩ : ModelUtils.StoreFS Unit) 77 ⟨1, 1⟩
        true true () (some [(ModelUtils.MetaKey.aic, 3)])).2.2.1
      [(ModelUtils.MetaKey.aic, 3)] rfl (by decide) rfl rfl⟩

theorem Differencing.difference_series_length (s : List ℚ) :
    (Differencing.difference_series s).length = s.length - 1 := by
  simp [Differencing.difference_series]

theorem Differencing.difference_series_getD (s : List ℚ) (t : ℕ) (h1 : 1 ≤ t)
    (h2 : t < s.length) :
    (Differencing.difference_series s).getD (t - 1) 0 =
      s.getD t 0 - s.getD (t - 1) 0 := by
  obtain ⟨i, rfl⟩ : ∃ i, t = i + 1 := ⟨t - 1, by omega⟩
  have hlen : i < (Differencing.difference_series s).length := by
    rw [Differencing.difference_series_length]; omega
  have htail : i < s.tail.length := by
    simp only [List.length_tail]; omega
  have hs : i < s.length := by omega
  simp only [Nat.add_sub_cancel]
  rw [List.getD_eq_getElem _ _ hlen, List.getD_eq_getElem _ _ h2,
    List.getD_eq_getElem _ _ hs]
  simp [Differencing.difference_series, List.getElem_zipWith,
    List.getElem_tail]

/-- Claim C5: for a series of length n with no missing values,
`difference_series` returns a series of length exactly n-1 whose value at
position t equals series[t] - series[t-1], the predecessor-less first
position being dropped rather than kept as a missing marker. -/
theorem C5_difference_series_spec (s : List ℚ) (t : ℕ) (h1 : 1 ≤ t)
    (h2 : t < s.length) :
    (Differencing.difference_series s).length = s.length - 1 ∧
      (Differencing.difference_series s).getD (t - 1) 0 =
        s.getD t 0 - s.getD (t - 1) 0 :=
  ⟨Differencing.difference_series_length s,
    Differencing.difference_series_getD s t h1 h2⟩

/-- Witness for C5 at the concrete series [3, 5, 2] and position t = 2:
the differenced series is [2, -3], of length 2 = 3 - 1, and its value at
position t - 1 = 1 is 2 - 5 = -3. -/
theorem C5_difference_series_spec_witness :
    (1 ≤ 2 ∧ 2 < [(3 : ℚ), 5, 2].length) ∧
      ((Differencing.difference_series [(3 : ℚ), 5, 2]).length =
          [(3 : ℚ), 5, 2].length - 1 ∧
        (Differencing.difference_series [(3 : ℚ), 5, 2]).getD (2 - 1) 0 =
          [(3 : ℚ), 5, 2].getD 2 0 - [(3 : ℚ), 5, 2].getD (2 - 1) 0) :=
  ⟨⟨by decide, by decide⟩,
    C5_difference_series_spec [(3 : ℚ), 5, 2] 2 (by decide) (by decide)⟩
